import Mathlib

/-
  Shallow embedding of the breakout example game (src/examples/breakout.rs)
  from the coffee repository, together with theorems about its tick,
  collision and input-handling behaviour.

  All f32 quantities are modelled as rationals: every claim below is about
  control flow, exact field updates and order of operations, none of which
  depends on floating-point rounding.  Rust's u32 score is modelled as Nat
  and the KeyCode / MouseButton enums as Nat codes.
-/

namespace Breakout

/-- Planar point with rational coordinates (models `coffee::graphics::Point`
and `Vector`). -/
structure Point where
  x : ℚ
  y : ℚ
  deriving DecidableEq

/-- Axis-aligned rectangle (models `coffee::graphics::Rectangle<f32>`). -/
structure Rectangle where
  x : ℚ
  y : ℚ
  width : ℚ
  height : ℚ
  deriving DecidableEq

/-- The ball: radius, position, scalar speed and direction vector
(the source calls the direction field `normal`). -/
structure Ball where
  radius : ℚ
  position : Point
  speed : ℚ
  normal : Point
  deriving DecidableEq

/-- A brick: position and (width, height) size. -/
structure Brick where
  position : Point
  size : ℚ × ℚ
  deriving DecidableEq

/-- The paddle: (width, height) size and horizontal position. -/
structure Paddle where
  size : ℚ × ℚ
  position : ℚ
  deriving DecidableEq

/-- The world state of `BreakoutExample`. -/
structure BreakoutExample where
  cursorPosition : Point
  keysPressed : Finset ℕ
  mouseButtonsPressed : Finset ℕ
  ball : Ball
  paddle : Paddle
  bricks : List Brick
  bounds : Rectangle
  score : ℕ
  deriving DecidableEq

/-- Circle/Rectangle collision detection, transcribed from
`BreakoutExample::intersects`: the rectangle `x`/`y` fields are used
directly as the centre of the distance test. -/
def intersects (ball : Ball) (rect : Rectangle) : Bool :=
  let cdx : ℚ := |ball.position.x - rect.x|
  let cdy : ℚ := |ball.position.y - rect.y|
  if cdx > rect.width / 2 + ball.radius then false
  else if cdy > rect.height / 2 + ball.radius then false
  else if cdx ≤ rect.width / 2 then true
  else if cdy ≤ rect.height / 2 then true
  else
    decide ((cdx - rect.width / 2) ^ 2 + (cdy - rect.height / 2) ^ 2 ≤
      ball.radius ^ 2)

/-- The rectangle the update loop builds from a brick. -/
def brickRect (b : Brick) : Rectangle :=
  { x := b.position.x, y := b.position.y, width := b.size.1,
    height := b.size.2 }

/-- The ball after the integration step `position += speed * normal`. -/
def movedBall (w : BreakoutExample) : Ball :=
  { w.ball with
      position := ⟨w.ball.position.x + w.ball.speed * w.ball.normal.x,
                   w.ball.position.y + w.ball.speed * w.ball.normal.y⟩ }

/-- The brick-collision loop: scan the bricks in order, remove the first
one the ball intersects and stop (the `remove` + `break` in the source). -/
def removeFirstHit (ball : Ball) : List Brick → List Brick
  | [] => []
  | b :: rest =>
      if intersects ball (brickRect b) then rest
      else b :: removeFirstHit ball rest

/-- One tick: direct transcription of `BreakoutExample::update`.
Integration first, then the four wall-bounce `if`s exactly as written in
the source (right: `x + r >= bounds.width`; left: `x - r <= bounds.x`;
bottom: `y + r >= bounds.height`; top: `y + r <= bounds.y`), then the
brick-collision loop.  No other field is touched. -/
def update (w : BreakoutExample) : BreakoutExample :=
  let b1 := movedBall w
  let nx1 := if b1.position.x + b1.radius ≥ w.bounds.width then -b1.normal.x
             else b1.normal.x
  let nx2 := if b1.position.x - b1.radius ≤ w.bounds.x then -nx1 else nx1
  let ny1 := if b1.position.y + b1.radius ≥ w.bounds.height then -b1.normal.y
             else b1.normal.y
  let ny2 := if b1.position.y + b1.radius ≤ w.bounds.y then -ny1 else ny1
  let b2 : Ball := { b1 with normal := ⟨nx2, ny2⟩ }
  { w with ball := b2, bricks := removeFirstHit b2 w.bricks }

/-- Key states of a keyboard or mouse event. -/
inductive ButtonState where
  | Pressed
  | Released
  deriving DecidableEq

/-- Input events handled by `BreakoutExample::on_input` (the wildcard arm
of the source's `match` is `Other`). -/
inductive Event where
  | CursorMoved (x y : ℚ)
  | TextInput (character : Char)
  | KeyboardInput (keyCode : ℕ) (state : ButtonState)
  | MouseInput (state : ButtonState) (button : ℕ)
  | Other
  deriving DecidableEq

/-- The `Input` accumulator struct of the example. -/
structure Input where
  cursorPosition : Point
  mouseWheel : Point
  keysPressed : Finset ℕ
  mouseButtonsPressed : Finset ℕ
  textBuffer : List Char
  deriving DecidableEq

/-- Models `Input::new`. -/
def Input.new : Input :=
  { cursorPosition := ⟨0, 0⟩
    mouseWheel := ⟨0, 0⟩
    keysPressed := ∅
    mouseButtonsPressed := ∅
    textBuffer := [] }

/-- Models `BreakoutExample::on_input`: fold one event into the input
state. -/
def on_input (input : Input) (event : Event) : Input :=
  match event with
  | .CursorMoved x y => { input with cursorPosition := ⟨x, y⟩ }
  | .TextInput c => { input with textBuffer := input.textBuffer ++ [c] }
  | .KeyboardInput k .Pressed =>
      { input with keysPressed := insert k input.keysPressed }
  | .KeyboardInput k .Released =>
      { input with keysPressed := input.keysPressed.erase k }
  | .MouseInput .Pressed b =>
      { input with mouseButtonsPressed := insert b input.mouseButtonsPressed }
  | .MouseInput .Released b =>
      { input with mouseButtonsPressed := input.mouseButtonsPressed.erase b }
  | .Other => input

/-- Code for `KeyCode::D` (move right). -/
def keyD : ℕ := 3

/-- Code for `KeyCode::A` (move left). -/
def keyA : ℕ := 0

/-- Models `BreakoutExample::interact`: copy the input snapshot into the
world, then two independent `if`s move the paddle by ±10. -/
def interact (input : Input) (w : BreakoutExample) : BreakoutExample :=
  let w1 := { w with cursorPosition := input.cursorPosition,
                     keysPressed := input.keysPressed,
                     mouseButtonsPressed := input.mouseButtonsPressed }
  let p1 := if keyD ∈ input.keysPressed then w1.paddle.position + 10
            else w1.paddle.position
  let p2 := if keyA ∈ input.keysPressed then p1 - 10 else p1
  { w1 with paddle := { w1.paddle with position := p2 } }

/-- One iteration of the game loop: fold the pending events through
`on_input`, then `interact`, then `update`. -/
def tickStep (events : List Event) (s : Input × BreakoutExample) :
    Input × BreakoutExample :=
  let input := events.foldl on_input s.1
  (input, update (interact input s.2))

/-- Run `N` ticks, each with its batch of input events. -/
def run : List (List Event) → Input × BreakoutExample →
    Input × BreakoutExample
  | [], s => s
  | evs :: rest, s => run rest (tickStep evs s)

/-- The 10×5 grid of bricks built by `BreakoutExample::new` (outer loop
over `x`, inner over `y`, brick size 75×30). -/
def initialBricks : List Brick :=
  (List.range 10).flatMap fun x =>
    (List.range 5).map fun y =>
      { position := ⟨(x : ℚ) * 75, (y : ℚ) * 30⟩, size := (75, 30) }

/-- The initial world state built by `BreakoutExample::new` for the
800×600 window. -/
def initialState : BreakoutExample :=
  { cursorPosition := ⟨0, 0⟩
    keysPressed := ∅
    mouseButtonsPressed := ∅
    paddle := { size := (128, 24), position := 0 }
    ball := { position := ⟨200, 200⟩, radius := 8, speed := 10,
              normal := ⟨4/5, 1/5⟩ }
    bounds := { x := 0, y := 32, width := 800, height := 600 }
    score := 0
    bricks := initialBricks }

/-- The four-step circle/rectangle test exactly as the spec words it,
with the two reject tests first (as one disjunction), then the two flat
accept tests (as one disjunction), then the corner test, every comparison
inclusive and `(rect.x, rect.y)` treated directly as the centre. -/
def specIntersects (ball : Ball) (rect : Rectangle) : Bool :=
  let dx : ℚ := |ball.position.x - rect.x|
  let dy : ℚ := |ball.position.y - rect.y|
  if dx > rect.width / 2 + ball.radius ∨ dy > rect.height / 2 + ball.radius
    then false
  else if dx ≤ rect.width / 2 ∨ dy ≤ rect.height / 2 then true
  else
    decide ((dx - rect.width / 2) ^ 2 + (dy - rect.height / 2) ^ 2 ≤
      ball.radius ^ 2)

/-- The wall-reflection step as claim C3 words it: the four edges sit at
`bounds.x`, `bounds.x + bounds.width`, `bounds.y` and
`bounds.y + bounds.height`, each is tested independently for overlap with
the ball (centre within one radius of the edge), and overlap negates the
corresponding direction component. -/
def claimWallNormal (w : BreakoutExample) : Point :=
  let b1 := movedBall w
  let nx1 := if b1.position.x + b1.radius ≥ w.bounds.x + w.bounds.width
             then -b1.normal.x else b1.normal.x
  let nx2 := if b1.position.x - b1.radius ≤ w.bounds.x then -nx1 else nx1
  let ny1 := if b1.position.y + b1.radius ≥ w.bounds.y + w.bounds.height
             then -b1.normal.y else b1.normal.y
  let ny2 := if b1.position.y - b1.radius ≤ w.bounds.y then -ny1 else ny1
  ⟨nx2, ny2⟩

/-- Actual right-wall test of the tick: `x + r >= bounds.width`
(note: not offset by `bounds.x`). -/
def hitsRightP (w : BreakoutExample) : Prop :=
  (movedBall w).position.x + (movedBall w).radius ≥ w.bounds.width

/-- Actual left-wall test of the tick: `x - r <= bounds.x`. -/
def hitsLeftP (w : BreakoutExample) : Prop :=
  (movedBall w).position.x - (movedBall w).radius ≤ w.bounds.x

/-- Actual bottom-wall test of the tick: `y + r >= bounds.height`
(note: not offset by `bounds.y`). -/
def hitsBottomP (w : BreakoutExample) : Prop :=
  (movedBall w).position.y + (movedBall w).radius ≥ w.bounds.height

/-- Actual top-wall test of the tick: `y + r <= bounds.y` (the source
adds the radius here, where the analogous left test subtracts it). -/
def hitsTopP (w : BreakoutExample) : Prop :=
  (movedBall w).position.y + (movedBall w).radius ≤ w.bounds.y

instance (w : BreakoutExample) : Decidable (hitsRightP w) := by
  unfold hitsRightP; infer_instance

instance (w : BreakoutExample) : Decidable (hitsLeftP w) := by
  unfold hitsLeftP; infer_instance

instance (w : BreakoutExample) : Decidable (hitsBottomP w) := by
  unfold hitsBottomP; infer_instance

instance (w : BreakoutExample) : Decidable (hitsTopP w) := by
  unfold hitsTopP; infer_instance

/-- Containment of the ball centre in the playfield bounds, as the
claimed invariant states it. -/
def inBounds (w : BreakoutExample) : Prop :=
  w.bounds.x ≤ w.ball.position.x ∧
    w.ball.position.x ≤ w.bounds.x + w.bounds.width ∧
    w.bounds.y ≤ w.ball.position.y ∧
    w.ball.position.y ≤ w.bounds.y + w.bounds.height

/-- A world state with the ball just inside the right wall, moving right
at full speed. -/
def wRight : BreakoutExample :=
  { initialState with
      bricks := []
      ball := { radius := 8, position := ⟨795, 300⟩, speed := 10,
                normal := ⟨1, 0⟩ } }

/-- A world state with the ball near the top wall, moving up; after
integration the ball overlaps the top edge at `bounds.y = 32` (centre
distance 4 < radius 8) yet none of the wall tests of the source fires. -/
def wTop : BreakoutExample :=
  { initialState with
      bricks := []
      ball := { radius := 8, position := ⟨400, 46⟩, speed := 10,
                normal := ⟨0, -1⟩ } }

/-- A world state with a stationary ball at (90, 90) and two coincident
bricks at (75, 90), both of which geometrically overlap the ball. -/
def wBrick : BreakoutExample :=
  { initialState with
      bricks := [{ position := ⟨75, 90⟩, size := (75, 30) },
                 { position := ⟨75, 90⟩, size := (75, 30) }]
      ball := { radius := 8, position := ⟨90, 90⟩, speed := 10,
                normal := ⟨0, 0⟩ } }

/-- An input snapshot with only the move-right key held. -/
def dInput : Input := { Input.new with keysPressed := {keyD} }

instance (w : BreakoutExample) : Decidable (inBounds w) := by
  unfold inBounds; infer_instance

theorem removeFirstHit_sublist (ball : Ball) (l : List Brick) :
    (removeFirstHit ball l).Sublist l := by
  induction l with
  | nil => simp [removeFirstHit]
  | cons b rest ih =>
      unfold removeFirstHit
      split
      · exact List.sublist_cons_self b rest
      · exact ih.cons₂ b

theorem removeFirstHit_eq_eraseIdx (ball : Ball) (l : List Brick) :
    removeFirstHit ball l
      = l.eraseIdx (l.findIdx fun b => intersects ball (brickRect b)) := by
  induction l with
  | nil => rfl
  | cons b rest ih =>
      unfold removeFirstHit
      rw [List.findIdx_cons]
      by_cases h : intersects ball (brickRect b)
      · simp [h]
      · simp [h, ih]

theorem length_le_removeFirstHit_succ (ball : Ball) (l : List Brick) :
    l.length ≤ (removeFirstHit ball l).length + 1 := by
  induction l with
  | nil => simp [removeFirstHit]
  | cons b rest ih =>
      unfold removeFirstHit
      split
      · simp
      · simpa using Nat.succ_le_succ ih

/-- C1, counterexample: in the state `wBrick` a brick overlaps the ball
and the tick removes it, yet the score does not increase — the update
loop never touches the score, so the claimed per-brick score increment
does not happen. -/
theorem C1_counterexample :
    (update wBrick).bricks.length < wBrick.bricks.length ∧
    ¬ (wBrick.score < (update wBrick).score) := by
  constructor
  · norm_num [update, movedBall, removeFirstHit, wBrick, initialState,
      intersects, brickRect, abs]
  · exact fun h => absurd rfl (Nat.ne_of_lt h)

/-- C1, amended: the brick-collision step of a tick scans the bricks in
their current order, removes exactly the first brick that overlaps the
ball (per the intersects test) and stops scanning — the resulting list is
the original with the first hit erased, a sublist of the original, and
shorter by at most one — but the score is left unchanged (the code never
increments it). -/
theorem C1_amended_first_hit_removed_score_unchanged :
    ∀ w : BreakoutExample,
    (update w).score = w.score ∧
    (update w).bricks
      = w.bricks.eraseIdx
          (w.bricks.findIdx fun b =>
            intersects (update w).ball (brickRect b)) ∧
    ((update w).bricks).Sublist w.bricks ∧
    w.bricks.length ≤ (update w).bricks.length + 1 := by
  intro w
  refine ⟨rfl, ?_, ?_, ?_⟩
  · exact removeFirstHit_eq_eraseIdx (update w).ball w.bricks
  · exact removeFirstHit_sublist (update w).ball w.bricks
  · exact length_le_removeFirstHit_succ (update w).ball w.bricks

/-- C2, counterexample: the state `wRight` has the ball inside the
playfield bounds, yet after one tick the ball centre sits at x = 805,
beyond `bounds.x + bounds.width = 800` — wall reflection negates the
direction but never moves the ball back, so the claimed containment
invariant fails. -/
theorem C2_counterexample :
    inBounds wRight ∧ ¬ inBounds (update wRight) := by
  constructor
  · norm_num [inBounds, wRight, initialState]
  · norm_num [inBounds, wRight, initialState, update, movedBall,
      removeFirstHit]

/-- C2, amended: after a tick the ball position is exactly the previous
position plus `speed * direction`; the wall-reflection step adjusts only
the direction and never clamps or restores the position, so the ball is
not kept inside the bounds. -/
theorem C2_amended_position_integrated_not_clamped :
    ∀ w : BreakoutExample,
    (update w).ball.position.x
      = w.ball.position.x + w.ball.speed * w.ball.normal.x ∧
    (update w).ball.position.y
      = w.ball.position.y + w.ball.speed * w.ball.normal.y :=
  fun _ => ⟨rfl, rfl⟩

/-- C3, counterexample: in the state `wTop` the ball ends the integration
step at (400, 36), overlapping the top edge `bounds.y = 32` (distance 4,
radius 8), so the claimed edge tests would negate `direction.y`; the tick
leaves the direction unchanged, because the actual top test compares
`y + radius` (not `y - radius`) with `bounds.y`. -/
theorem C3_counterexample :
    (update wTop).ball.normal ≠ claimWallNormal wTop := by
  norm_num [update, movedBall, claimWallNormal, wTop, initialState,
    removeFirstHit, Point.mk.injEq]

/-- C3, amended: after the integration step the four edge tests run
independently, and each direction component ends up negated exactly when
an odd number of the two tests of its axis fire; but the actual tests are
`x + r ≥ bounds.width` (right, no `bounds.x` offset), `x - r ≤ bounds.x`
(left), `y + r ≥ bounds.height` (bottom, no `bounds.y` offset) and
`y + r ≤ bounds.y` (top, adding the radius instead of subtracting it). -/
theorem C3_amended_wall_tests :
    ∀ w : BreakoutExample,
    ((update w).ball.normal.x
      = if (hitsRightP w ∧ ¬ hitsLeftP w) ∨ (¬ hitsRightP w ∧ hitsLeftP w)
        then -w.ball.normal.x else w.ball.normal.x) ∧
    ((update w).ball.normal.y
      = if (hitsBottomP w ∧ ¬ hitsTopP w) ∨ (¬ hitsBottomP w ∧ hitsTopP w)
        then -w.ball.normal.y else w.ball.normal.y) := by
  intro w
  constructor
  · by_cases hR : hitsRightP w <;> by_cases hL : hitsLeftP w <;>
      simp_all [update, movedBall, hitsRightP, hitsLeftP] <;>
        split_ifs <;> (try casesm* _ ∨ _) <;> first | rfl | linarith
  · by_cases hB : hitsBottomP w <;> by_cases hT : hitsTopP w <;>
      simp_all [update, movedBall, hitsBottomP, hitsTopP] <;>
        split_ifs <;> (try casesm* _ ∨ _) <;> first | rfl | linarith

/-- C4: in every tick, each direction component is sign-negated at most
once by the wall-reflection step — the final component is either the old
one or its negation, never anything else, regardless of how many of the
two edges of that axis are violated (two simultaneous violations cancel
to no net reflection). -/
theorem C4_axis_reflects_at_most_once :
    ∀ w : BreakoutExample,
    ((update w).ball.normal.x = w.ball.normal.x ∨
      (update w).ball.normal.x = -w.ball.normal.x) ∧
    ((update w).ball.normal.y = w.ball.normal.y ∨
      (update w).ball.normal.y = -w.ball.normal.y) := by
  intro w
  unfold update movedBall
  constructor <;> dsimp only <;> split_ifs <;> simp

/-- C5: for every ball and rectangle (degenerate sizes included),
`intersects` coincides with the four-step circle/rectangle test worded by
the spec — reject when `dx` or `dy` exceeds the half-extent plus radius,
accept when `dx` or `dy` is within the half-extent, otherwise accept
exactly when the corner distance squared is at most `radius²`, every
comparison inclusive and `(rect.x, rect.y)` used directly as the centre.
It is a total Boolean predicate with no error outcome. -/
theorem C5_intersects_matches_spec :
    ∀ (ball : Ball) (rect : Rectangle),
    intersects ball rect = specIntersects ball rect := by
  intro ball rect
  unfold intersects specIntersects
  dsimp only
  split_ifs <;> simp_all <;> (try casesm* _ ∨ _) <;> linarith

/-- C6: across every tick, from every world state, the bricks collection
never grows and the score never decreases. -/
theorem C6_bricks_nonincreasing_score_nondecreasing :
    ∀ w : BreakoutExample,
    (update w).bricks.length ≤ w.bricks.length ∧
    w.score ≤ (update w).score := by
  intro w
  refine ⟨?_, le_of_eq rfl⟩
  exact (removeFirstHit_sublist (update w).ball w.bricks).length_le

/-- C7: each interact step moves the paddle right by exactly 10 when the
move-right key is held and left by exactly 10 when the move-left key is
held, both applying (and cancelling) when both keys are held, with no
bounds clamping; in particular three steps with move-right held take the
paddle from 0 to 30. -/
theorem C7_paddle_step_no_clamp :
    (∀ (input : Input) (w : BreakoutExample),
      (interact input w).paddle.position
        = w.paddle.position + (if keyD ∈ input.keysPressed then 10 else 0)
            - (if keyA ∈ input.keysPressed then 10 else 0) ∧
      (interact input w).paddle.size = w.paddle.size) ∧
    (interact dInput (interact dInput
        (interact dInput initialState))).paddle.position = 30 := by
  constructor
  · intro input w
    constructor
    · by_cases hD : keyD ∈ input.keysPressed <;>
        by_cases hA : keyA ∈ input.keysPressed <;>
          simp [interact, hD, hA]
    · rfl
  · norm_num [interact, dInput, Input.new, initialState, keyD, keyA]

/-- C8: pressing an already-held key is idempotent on the held-key set
(pressing twice equals pressing once), and releasing a key that is not
held leaves the input state unchanged. -/
theorem C8_press_idempotent_release_noop :
    ∀ (i : Input) (k : ℕ),
    on_input (on_input i (Event.KeyboardInput k ButtonState.Pressed))
        (Event.KeyboardInput k ButtonState.Pressed)
      = on_input i (Event.KeyboardInput k ButtonState.Pressed) ∧
    (k ∉ i.keysPressed →
      on_input i (Event.KeyboardInput k ButtonState.Released) = i) := by
  intro i k
  constructor
  · simp [on_input, Finset.insert_idem]
  · intro h
    simp [on_input, Finset.erase_eq_self.mpr h]

/-- C8, witness: the idempotence and no-op facts hold concretely for key
code 5 starting from the fresh input state. -/
theorem C8_witness :
    (on_input (on_input Input.new (Event.KeyboardInput 5 ButtonState.Pressed))
        (Event.KeyboardInput 5 ButtonState.Pressed)
      = on_input Input.new (Event.KeyboardInput 5 ButtonState.Pressed)) ∧
    ((5 : ℕ) ∉ Input.new.keysPressed ∧
      on_input Input.new (Event.KeyboardInput 5 ButtonState.Released)
        = Input.new) :=
  ⟨(C8_press_idempotent_release_noop Input.new 5).1,
    by decide,
    (C8_press_idempotent_release_noop Input.new 5).2 (by decide)⟩

/-- C9: the game loop is deterministic — two runs fed the same per-tick
event batches from equal initial input and world states produce equal
states after any number of ticks; the step functions are pure, with no
hidden state, randomness or clock dependence in the embedding. -/
theorem C9_run_deterministic :
    ∀ (evs : List (List Event)) (s t : Input × BreakoutExample),
    s = t → run evs s = run evs t :=
  fun _ _ _ h => by rw [h]

/-- C9, witness: one concrete tick from the initial state, replayed from
an equal state, yields the same result. -/
theorem C9_witness :
    run [[Event.Other]] (Input.new, initialState)
      = run [[Event.Other]] (Input.new, initialState) :=
  C9_run_deterministic [[Event.Other]]
    (Input.new, initialState) (Input.new, initialState) rfl

/-- C10: a tick leaves the score, the paddle position and size, the
playfield bounds, the ball radius and speed, and the input-mirror fields
unchanged — only the ball position, the ball direction and the bricks
may change. -/
theorem C10_update_frame :
    ∀ w : BreakoutExample,
    (update w).score = w.score ∧
    (update w).paddle.position = w.paddle.position ∧
    (update w).paddle.size = w.paddle.size ∧
    (update w).bounds = w.bounds ∧
    (update w).ball.radius = w.ball.radius ∧
    (update w).ball.speed = w.ball.speed ∧
    (update w).cursorPosition = w.cursorPosition ∧
    (update w).keysPressed = w.keysPressed ∧
    (update w).mouseButtonsPressed = w.mouseButtonsPressed :=
  fun _ => ⟨rfl, rfl, rfl, rfl, rfl, rfl, rfl, rfl, rfl⟩

end Breakout
